import Mathlib

/-!
Verification of the knowledge-base system (Qwen embedder + Zilliz vector store +
KnowledgeManager facade).

The three TypeScript modules are shallowly embedded:
 * `QwenVectorizer` (vectorizer.ts): remote embedding calls are modelled by an
   environment function `EmbedEnv.api`; every remote request issued is recorded
   in a log (a list of request payloads).
 * `ZillizManager` (zilliz.ts): the remote vector database is modelled by a
   `DB` state (collections with schema and rows, plus the set of loaded
   collections) together with a `ZillizEnv` that decides the outcome of each
   remote endpoint.  Every remote request is recorded as a `RemoteCall`.
 * `KnowledgeManager` (knowledgeManager.ts): composes the two.  The `uuidv4`
   random-identifier source is modelled as a stream `uuids : Nat → String`;
   `Date.now` is a parameter `now`.

JavaScript `x || d` defaulting is modelled faithfully by `jsNumOr` /
`jsStrOr` / `jsIntOr` / `jsIdOr` (0, "" and missing values are falsy; arrays
are always truthy).  Scores and weights use `Rat`: the code only stores and
compares these numbers (no arithmetic), so ordered-field comparisons model the
TypeScript comparisons exactly.
-/

namespace Knowledge

/-- Vectors are plain lists of numbers. -/
abbrev Vec := List Rat

/-- JavaScript `o || d` on an optional number: `0` and a missing value are falsy. -/
def jsNumOr (o : Option Rat) (d : Rat) : Rat :=
  match o with
  | none => d
  | some x => if x = 0 then d else x

/-- JavaScript `o || d` on an optional integer: `0` and a missing value are falsy. -/
def jsIntOr (o : Option Int) (d : Int) : Int :=
  match o with
  | none => d
  | some x => if x = 0 then d else x

/-- JavaScript `o || d` on an optional string: `""` and a missing value are falsy. -/
def jsStrOr (o : Option String) (d : String) : String :=
  match o with
  | none => d
  | some s => if s = "" then d else s

/-- Runtime value of the `id` field (`string | number` in TypeScript). -/
inductive JsonId where
  | str (s : String)
  | num (n : Int)
deriving DecidableEq, Repr

/-- JavaScript `o || d` on an optional `string | number` id. -/
def jsIdOr (o : Option JsonId) (d : JsonId) : JsonId :=
  match o with
  | none => d
  | some (JsonId.str s) => if s = "" then d else JsonId.str s
  | some (JsonId.num n) => if n = 0 then d else JsonId.num n

/-! ### QwenVectorizer (vectorizer.ts) -/

/-- One entry of `QwenEmbeddingResponse.data`; `embedding` is optional because the
code checks `if (item.embedding)`. -/
structure QwenItem where
  embedding : Option Vec
  index : Nat
deriving DecidableEq, Repr

/-- Body of a response of the embeddings endpoint; `data` is optional because the
code checks `if (!result.data)`. -/
structure QwenEmbeddingResponse where
  data : Option (List QwenItem)
deriving DecidableEq, Repr

/-- Environment of the embedder: the outcome of the remote embeddings endpoint for
a given request payload (the list of input texts). -/
structure EmbedEnv where
  api : List String → Except String QwenEmbeddingResponse

/-- Extraction loop of `callEmbeddingApi`: collect `item.embedding` for every item,
failing on the first item whose `embedding` field is missing. -/
def extractVectors : List QwenItem → Except String (List Vec)
  | [] => Except.ok []
  | item :: rest =>
    match item.embedding with
    | some e => (extractVectors rest).map (fun vs => e :: vs)
    | none => Except.error "响应中缺少embedding字段"

/-- QwenVectorizer.callEmbeddingApi: one POST to the embeddings endpoint carrying
the whole batch; fail on a transport error, on a missing `data` field, or on any
item missing its `embedding`.  The second component is the log of remote request
payloads issued (exactly one). -/
def QwenVectorizer.callEmbeddingApi (env : EmbedEnv) (texts : List String) :
    Except String (List Vec) × List (List String) :=
  match env.api texts with
  | Except.error e => (Except.error ("API请求失败: " ++ e), [texts])
  | Except.ok result =>
    match result.data with
    | none => (Except.error "API响应格式错误", [texts])
    | some items => (extractVectors items, [texts])

/-- QwenVectorizer.vectorizeText: call the API with a one-element batch and return
the first vector; an empty result list is an error. -/
def QwenVectorizer.vectorizeText (env : EmbedEnv) (text : String) :
    Except String Vec × List (List String) :=
  match QwenVectorizer.callEmbeddingApi env [text] with
  | (Except.ok response, log) =>
    match response with
    | v :: _ => (Except.ok v, log)
    | [] => (Except.error "API返回空结果", log)
  | (Except.error e, log) => (Except.error e, log)

/-- QwenVectorizer.vectorizeTexts: the batch entry point is a direct call of
`callEmbeddingApi` (the catch block only logs and rethrows). -/
def QwenVectorizer.vectorizeTexts (env : EmbedEnv) (texts : List String) :
    Except String (List Vec) × List (List String) :=
  QwenVectorizer.callEmbeddingApi env texts

/-- QwenVectorizer.getVectorDimension: probe with the text "测试"; on success return
the probe vector's length, on failure return the default dimension 1024. -/
def QwenVectorizer.getVectorDimension (env : EmbedEnv) : Nat × List (List String) :=
  match QwenVectorizer.vectorizeText env "测试" with
  | (Except.ok v, log) => (v.length, log)
  | (Except.error _, log) => (1024, log)

/-! ### ZillizManager (zilliz.ts) -/

/-- Record stored in a collection (interface `KnowledgeItem`). -/
structure KnowledgeItem where
  vector : Vec
  text : String
  topic : String
  weight : Rat
  title : String
  tags : List String
  created_at : Int
deriving DecidableEq, Repr

/-- Field description used in the create-collection request (interface `FieldSchema`). -/
structure FieldSchema where
  fieldName : String
  dataType : String
  isPrimary : Option Bool := none
  elementDataType : Option String := none
  maxLength : Option Nat := none
  dimension : Option Nat := none
deriving DecidableEq, Repr

/-- Fixed schema sent by `ZillizManager.createCollection`. -/
def knowledgeSchema (vectorDim : Nat) : List FieldSchema :=
  [ { fieldName := "id", dataType := "Int64", isPrimary := some true },
    { fieldName := "vector", dataType := "FloatVector", dimension := some vectorDim },
    { fieldName := "text", dataType := "VarChar", maxLength := some 65535 },
    { fieldName := "topic", dataType := "VarChar", maxLength := some 500 },
    { fieldName := "weight", dataType := "Float" },
    { fieldName := "created_at", dataType := "Int32" },
    { fieldName := "title", dataType := "VarChar", maxLength := some 100 },
    { fieldName := "tags", dataType := "Array", elementDataType := some "VarChar",
      maxLength := some 100 } ]

/-- Server-side state of one collection: its schema and its rows. -/
structure CollData where
  schema : List FieldSchema
  rows : List KnowledgeItem
deriving DecidableEq, Repr

/-- Server-side state of the vector database: the named collections and which of
them are loaded into query-serving memory. -/
structure DB where
  colls : List (String × CollData)
  loaded : List String
deriving DecidableEq, Repr

/-- Payload of a successful insert response (e.g. the ids the database assigned);
`ZillizManager.insertData` discards it. -/
structure InsertInfo where
  insertIds : List Int
deriving DecidableEq, Repr

/-- Raw JSON record returned by the search endpoint: every field may be absent. -/
structure RawSearchResult where
  id : Option JsonId := none
  distance : Option Rat := none
  score : Option Rat := none
  text : Option String := none
  topic : Option String := none
  weight : Option Rat := none
  created_at : Option Int := none
  title : Option String := none
  tags : Option (List String) := none
deriving DecidableEq, Repr

/-- Client-side search result (interface `SearchResult`).  TypeScript types are
erased at runtime, so each field is modelled as optional. -/
structure SearchResult where
  id : Option JsonId
  distance : Option Rat
  text : Option String
  topic : Option String
  weight : Option Rat
  created_at : Option Int
  title : Option String
  tags : Option (List String)
deriving DecidableEq, Repr

/-- Outcomes of the remote Zilliz endpoints for one run: whether the list, create
and load requests fail, and the responses of the insert and search requests. -/
structure ZillizEnv where
  listFails : Bool
  createFails : Bool
  insertResp : Except String InsertInfo
  loadFails : Bool
  searchResp : Except String (List RawSearchResult)

/-- One remote request, as recorded in the call log. -/
inductive RemoteCall where
  | embed (texts : List String)
  | listColls
  | create (collectionName : String) (vectorDim : Nat)
  | insertCall (collectionName : String) (data : List KnowledgeItem)
  | load (collectionName : String)
  | searchCall (collectionName : String) (queryVector : Vec) (limit : Nat)
deriving DecidableEq, Repr

/-- ZillizManager.listCollections: POST to the list endpoint; on error the catch
block returns the empty list. -/
def ZillizManager.listCollections (env : ZillizEnv) (db : DB) :
    List String × List RemoteCall :=
  if env.listFails then ([], [RemoteCall.listColls])
  else (db.colls.map Prod.fst, [RemoteCall.listColls])

/-- ZillizManager.createCollection: if the name is already in the collection list
return `true` without a create request; otherwise send the create request with
the fixed `knowledgeSchema`; any error is caught and yields `false`. -/
def ZillizManager.createCollection (env : ZillizEnv) (db : DB)
    (collectionName : String) (vectorDim : Nat) : Bool × DB × List RemoteCall :=
  let listed := ZillizManager.listCollections env db
  if collectionName ∈ listed.1 then (true, db, listed.2)
  else if env.createFails then
    (false, db, listed.2 ++ [RemoteCall.create collectionName vectorDim])
  else
    (true,
     { db with colls := db.colls ++
         [(collectionName, { schema := knowledgeSchema vectorDim, rows := [] })] },
     listed.2 ++ [RemoteCall.create collectionName vectorDim])

/-- Server semantics of a successful insert: append the rows to the named
collection. -/
def DB.appendRows (db : DB) (collectionName : String) (data : List KnowledgeItem) : DB :=
  { db with colls := db.colls.map (fun p =>
      if p.1 = collectionName then (p.1, { p.2 with rows := p.2.rows ++ data }) else p) }

/-- ZillizManager.loadCollection: return `false` if the name is not in the
collection list; otherwise send the load request (errors are caught and give
`false`). -/
def ZillizManager.loadCollection (env : ZillizEnv) (db : DB) (collectionName : String) :
    Bool × DB × List RemoteCall :=
  let listed := ZillizManager.listCollections env db
  if collectionName ∈ listed.1 then
    if env.loadFails then (false, db, listed.2 ++ [RemoteCall.load collectionName])
    else (true, { db with loaded := collectionName :: db.loaded },
          listed.2 ++ [RemoteCall.load collectionName])
  else (false, db, listed.2)

/-- Insert request plus the follow-up load of `ZillizManager.insertData`: send the
insert request; on success append the rows, then call `loadCollection` whose
result is NOT checked, and return `true`. -/
def ZillizManager.insertRequest (env : ZillizEnv) (db : DB) (collectionName : String)
    (data : List KnowledgeItem) : Bool × DB × List RemoteCall :=
  match env.insertResp with
  | Except.error _ => (false, db, [RemoteCall.insertCall collectionName data])
  | Except.ok _ =>
    let db1 := db.appendRows collectionName data
    let ld := ZillizManager.loadCollection env db1 collectionName
    (true, ld.2.1, RemoteCall.insertCall collectionName data :: ld.2.2)

/-- ZillizManager.insertData: auto-create the collection (with `vectorDim`) when it
is absent from the collection list, then insert and load; create failure makes
the whole call return `false`. -/
def ZillizManager.insertData (env : ZillizEnv) (db : DB) (collectionName : String)
    (data : List KnowledgeItem) (vectorDim : Nat) : Bool × DB × List RemoteCall :=
  let listed := ZillizManager.listCollections env db
  if collectionName ∈ listed.1 then
    let r := ZillizManager.insertRequest env db collectionName data
    (r.1, r.2.1, listed.2 ++ r.2.2)
  else
    let created := ZillizManager.createCollection env db collectionName vectorDim
    if created.1 then
      let r := ZillizManager.insertRequest env created.2.1 collectionName data
      (r.1, r.2.1, listed.2 ++ created.2.2 ++ r.2.2)
    else (false, created.2.1, listed.2 ++ created.2.2)

/-- Per-record formatting done by `ZillizManager.search`:
`distance: result.distance || result.score || 0`, all other fields copied. -/
def formatRaw (r : RawSearchResult) : SearchResult :=
  { id := r.id
    distance := some (jsNumOr r.distance (jsNumOr r.score 0))
    text := r.text
    topic := r.topic
    weight := r.weight
    created_at := r.created_at
    title := r.title
    tags := r.tags }

/-- ZillizManager.search: ensure the collection is loaded (if `loadCollection`
returns `false`, return the empty list); send the search request; a search error
is caught and yields the empty list. -/
def ZillizManager.search (env : ZillizEnv) (db : DB) (collectionName : String)
    (queryVector : Vec) (limit : Nat) : List SearchResult × DB × List RemoteCall :=
  let ld := ZillizManager.loadCollection env db collectionName
  if ld.1 then
    match env.searchResp with
    | Except.error _ =>
      ([], ld.2.1, ld.2.2 ++ [RemoteCall.searchCall collectionName queryVector limit])
    | Except.ok raws =>
      (raws.map formatRaw, ld.2.1,
       ld.2.2 ++ [RemoteCall.searchCall collectionName queryVector limit])
  else ([], ld.2.1, ld.2.2)

/-! ### KnowledgeManager (knowledgeManager.ts) -/

/-- Caller-supplied metadata of a document. -/
structure Metadata where
  topic : String
  weight : Rat
  title : String
  tags : List String
deriving DecidableEq, Repr

/-- Metadata sub-object of a `KnowledgeSearchResult`. -/
structure ResultMetadata where
  topic : String
  weight : Rat
  title : String
  tags : List String
deriving DecidableEq, Repr

/-- Result object returned by `searchSimilar` (interface `KnowledgeSearchResult`). -/
structure KnowledgeSearchResult where
  id : JsonId
  text : String
  metadata : ResultMetadata
  created_at : Int
  similarity_score : Rat
deriving DecidableEq, Repr

/-- Per-record shaping done inside `KnowledgeManager.searchSimilar`: every field is
defaulted with JavaScript `||` (`id || 'auto_generated'`, `text || ''`,
`topic || ''`, `weight || 1.0`, `title || ''`, `tags || []`, `created_at || 0`,
`distance || 0`). -/
def formatResult (r : SearchResult) : KnowledgeSearchResult :=
  { id := jsIdOr r.id (JsonId.str "auto_generated")
    text := jsStrOr r.text ""
    metadata :=
      { topic := jsStrOr r.topic ""
        weight := jsNumOr r.weight 1
        title := jsStrOr r.title ""
        tags := r.tags.getD [] }
    created_at := jsIntOr r.created_at 0
    similarity_score := jsNumOr r.distance 0 }

/-- Filtering loop of `searchSimilar`: keep a record when
`(result.distance || 0) >= scoreThreshold`, formatting kept records in order. -/
def filterFormat (scoreThreshold : Rat) : List SearchResult → List KnowledgeSearchResult
  | [] => []
  | r :: rest =>
    if jsNumOr r.distance 0 ≥ scoreThreshold then
      formatResult r :: filterFormat scoreThreshold rest
    else filterFormat scoreThreshold rest

/-- KnowledgeManager.searchSimilar: embed the query, run the vector search, filter
by the score threshold and format.  (The fixed `outputFields` list passed to the
search has no effect in this model of the remote response.) -/
def KnowledgeManager.searchSimilar (eenv : EmbedEnv) (zenv : ZillizEnv) (db : DB)
    (collectionName : String) (queryText : String) (limit : Nat) (scoreThreshold : Rat) :
    Except String (List KnowledgeSearchResult) × DB × List RemoteCall :=
  match QwenVectorizer.vectorizeText eenv queryText with
  | (Except.error e, elog) => (Except.error e, db, elog.map RemoteCall.embed)
  | (Except.ok queryVector, elog) =>
    let sr := ZillizManager.search zenv db collectionName queryVector limit
    (Except.ok (filterFormat scoreThreshold sr.1), sr.2.1,
     elog.map RemoteCall.embed ++ sr.2.2)

/-- KnowledgeManager.vectorizeAndStore: embed the text, insert one record, and on
success return a fresh identifier from the uuid stream (the insert response's
payload is never consulted). -/
def KnowledgeManager.vectorizeAndStore (eenv : EmbedEnv) (zenv : ZillizEnv) (db : DB)
    (collectionName : String) (vectorDim : Nat) (text : String) (metadata : Metadata)
    (now : Int) (uuids : Nat → String) :
    Except String String × DB × List RemoteCall :=
  match QwenVectorizer.vectorizeText eenv text with
  | (Except.error e, elog) => (Except.error e, db, elog.map RemoteCall.embed)
  | (Except.ok vector, elog) =>
    let item : KnowledgeItem :=
      { vector := vector, text := text, topic := metadata.topic,
        weight := metadata.weight, title := metadata.title, tags := metadata.tags,
        created_at := now }
    let ins := ZillizManager.insertData zenv db collectionName [item] vectorDim
    if ins.1 then
      (Except.ok (uuids 0), ins.2.1, elog.map RemoteCall.embed ++ ins.2.2)
    else
      (Except.error "数据存储失败", ins.2.1, elog.map RemoteCall.embed ++ ins.2.2)

/-- Item construction of `batchVectorizeAndStore`:
`texts.map((text, index) => ({vector: vectors[index], ...metadatas[index], ...}))`,
pointwise over the three lists. -/
def buildItems (now : Int) : List String → List Metadata → List Vec → List KnowledgeItem
  | text :: ts, m :: ms, v :: vs =>
    { vector := v, text := text, topic := m.topic, weight := m.weight,
      title := m.title, tags := m.tags, created_at := now } :: buildItems now ts ms vs
  | _, _, _ => []

/-- KnowledgeManager.batchVectorizeAndStore: reject mismatched input lengths before
any remote call; otherwise embed all texts in one batched call, insert all
records in one call, and return one fresh identifier per text from the uuid
stream. -/
def KnowledgeManager.batchVectorizeAndStore (eenv : EmbedEnv) (zenv : ZillizEnv)
    (db : DB) (collectionName : String) (vectorDim : Nat) (texts : List String)
    (metadatas : List Metadata) (now : Int) (uuids : Nat → String) :
    Except String (List String) × DB × List RemoteCall :=
  if texts.length ≠ metadatas.length then
    (Except.error "文本数组和元数据数组长度不匹配", db, [])
  else
    match QwenVectorizer.vectorizeTexts eenv texts with
    | (Except.error e, elog) => (Except.error e, db, elog.map RemoteCall.embed)
    | (Except.ok vectors, elog) =>
      let items := buildItems now texts metadatas vectors
      let ins := ZillizManager.insertData zenv db collectionName items vectorDim
      if ins.1 then
        (Except.ok ((List.range texts.length).map uuids), ins.2.1,
         elog.map RemoteCall.embed ++ ins.2.2)
      else
        (Except.error "批量数据存储失败", ins.2.1, elog.map RemoteCall.embed ++ ins.2.2)

/-! ### Helper lemmas -/

/-- Extraction of an honest response: when every item carries its embedding, the
extraction loop returns exactly the embeddings in order. -/
theorem extractVectors_map (f : String → Vec) (l : List String) :
    extractVectors (l.map fun t => { embedding := some (f t), index := 0 }) =
      Except.ok (l.map f) := by
  induction l with
  | nil => rfl
  | cons t ts ih => simp [extractVectors, ih, Except.map]

/-- Characterisation of the filtering loop of `searchSimilar` as filter-then-map. -/
theorem filterFormat_eq (thr : Rat) (l : List SearchResult) :
    filterFormat thr l =
      (l.filter (fun r => decide (jsNumOr r.distance 0 ≥ thr))).map formatResult := by
  induction l with
  | nil => rfl
  | cons r rest ih =>
    by_cases h : jsNumOr r.distance 0 ≥ thr
    · simp [filterFormat, h, ih]
    · simp [filterFormat, h, ih]

/-- Raising the threshold never keeps more records. -/
theorem filterFormat_length_antitone (t1 t2 : Rat) (h : t1 ≤ t2) :
    ∀ l : List SearchResult, (filterFormat t2 l).length ≤ (filterFormat t1 l).length := by
  intro l
  induction l with
  | nil => exact Nat.le_refl _
  | cons r rest ih =>
    by_cases h2 : jsNumOr r.distance 0 ≥ t2
    · have h1 : jsNumOr r.distance 0 ≥ t1 := le_trans h h2
      simpa [filterFormat, h1, h2] using ih
    · by_cases h1 : jsNumOr r.distance 0 ≥ t1
      · simp only [filterFormat, if_pos h1, if_neg h2, List.length_cons]
        exact Nat.le_trans ih (Nat.le_succ _)
      · simpa [filterFormat, h1, h2] using ih

/-- Filtering and formatting a descending-score list gives a descending-score list. -/
theorem filterFormat_pairwise (t : Rat) (l : List SearchResult)
    (hl : l.Pairwise (fun a b => jsNumOr b.distance 0 ≤ jsNumOr a.distance 0)) :
    (filterFormat t l).Pairwise (fun a b => b.similarity_score ≤ a.similarity_score) := by
  rw [filterFormat_eq]
  exact (hl.filter _).map formatResult (fun a b hab => hab)

/-- Log of a list request is always exactly one remote list call. -/
theorem listCollections_log (env : ZillizEnv) (db : DB) :
    (ZillizManager.listCollections env db).2 = [RemoteCall.listColls] := by
  unfold ZillizManager.listCollections
  split <;> rfl

/-- Successful-path lemma for `insertData`: when the collection is listed and the
insert response is a success, the call reports success whatever the load does. -/
theorem insertData_fst_of_ok (zenv : ZillizEnv) (db : DB) (collectionName : String)
    (data : List KnowledgeItem) (vectorDim : Nat) (info : InsertInfo)
    (hlist : zenv.listFails = false)
    (hcoll : collectionName ∈ db.colls.map Prod.fst)
    (hins : zenv.insertResp = Except.ok info) :
    (ZillizManager.insertData zenv db collectionName data vectorDim).1 = true := by
  simp [ZillizManager.insertData, ZillizManager.listCollections, hlist, hcoll,
        ZillizManager.insertRequest, hins]

/-! ### Claims -/

/-- C1: for every list of texts, `vectorizeTexts` (embedBatch) returns exactly one
vector per input text, the i-th output vector being the embedding of the i-th
text, and it issues a single remote embedding request carrying the whole batch
(the request log is exactly `[texts]`). -/
theorem claim_C1 (env : EmbedEnv) (texts : List String) (f : String → Vec)
    (h : env.api texts =
      Except.ok { data := some (texts.map fun t => { embedding := some (f t), index := 0 }) }) :
    QwenVectorizer.vectorizeTexts env texts = (Except.ok (texts.map f), [texts]) ∧
    (texts.map f).length = texts.length := by
  refine ⟨?_, by simp⟩
  simp [QwenVectorizer.vectorizeTexts, QwenVectorizer.callEmbeddingApi, h, extractVectors_map]

/-- Embedding environment whose remote service answers honestly with the constant
vector `[1]`. -/
def envC1 : EmbedEnv :=
  { api := fun ts =>
      Except.ok { data := some (ts.map fun _ => { embedding := some [(1 : Rat)], index := 0 }) } }

/-- Witness for C1 at the batch `["a", "b"]`. -/
theorem claim_C1_witness :
    QwenVectorizer.vectorizeTexts envC1 ["a", "b"] =
      (Except.ok ((["a", "b"]).map fun _ => ([(1 : Rat)] : Vec)), [["a", "b"]]) ∧
    ((["a", "b"]).map fun _ => ([(1 : Rat)] : Vec)).length = (["a", "b"] : List String).length :=
  claim_C1 envC1 ["a", "b"] (fun _ => [(1 : Rat)]) rfl

/-- C2: when the text and metadata lists have different lengths,
`batchVectorizeAndStore` fails with the validation error, the database state is
untouched and the remote-call log is empty (neither the embedding service nor
the vector database is invoked). -/
theorem claim_C2 (eenv : EmbedEnv) (zenv : ZillizEnv) (db : DB) (collectionName : String)
    (vectorDim : Nat) (texts : List String) (metadatas : List Metadata) (now : Int)
    (uuids : Nat → String) (h : texts.length ≠ metadatas.length) :
    KnowledgeManager.batchVectorizeAndStore eenv zenv db collectionName vectorDim texts
        metadatas now uuids =
      (Except.error "文本数组和元数据数组长度不匹配", db, []) := by
  simp [KnowledgeManager.batchVectorizeAndStore, h]

/-- Embedding environment whose remote service is down. -/
def envC2 : EmbedEnv := { api := fun _ => Except.error "down" }

/-- Zilliz environment for the C2 witness. -/
def zenvC2 : ZillizEnv :=
  { listFails := false, createFails := false, insertResp := Except.ok { insertIds := [] },
    loadFails := false, searchResp := Except.ok [] }

/-- Witness for C2: one text, zero metadata entries. -/
theorem claim_C2_witness :
    KnowledgeManager.batchVectorizeAndStore envC2 zenvC2 { colls := [], loaded := [] } "kb" 4
        ["a"] [] 0 (fun _ => "u") =
      (Except.error "文本数组和元数据数组长度不匹配", { colls := [], loaded := [] }, []) :=
  claim_C2 envC2 zenvC2 { colls := [], loaded := [] } "kb" 4 ["a"] [] 0 (fun _ => "u")
    (by decide)

/-- C4: whenever the collection cannot be loaded (in particular when it is absent
from the collection list) or the remote search request fails, `search` returns
the empty list — it never raises, since its result type is a plain list. -/
theorem claim_C4 (zenv : ZillizEnv) (db : DB) (collectionName : String)
    (queryVector : Vec) (limit : Nat)
    (h : (ZillizManager.loadCollection zenv db collectionName).1 = false ∨
         ∃ e, zenv.searchResp = Except.error e) :
    (ZillizManager.search zenv db collectionName queryVector limit).1 = [] := by
  by_cases hld : (ZillizManager.loadCollection zenv db collectionName).1 = true
  · rcases h with h | ⟨e, he⟩
    · rw [hld] at h
      exact absurd h (by simp)
    · simp [ZillizManager.search, hld, he]
  · simp only [Bool.not_eq_true] at hld
    simp [ZillizManager.search, hld]

/-- Zilliz environment for the C4 witness: every endpoint healthy. -/
def zenvC4 : ZillizEnv :=
  { listFails := false, createFails := false, insertResp := Except.ok { insertIds := [] },
    loadFails := false, searchResp := Except.ok [] }

/-- Witness for C4: searching a never-created collection returns the empty list. -/
theorem claim_C4_witness :
    (ZillizManager.search zenvC4 { colls := [], loaded := [] } "kb" [] 5).1 = [] :=
  claim_C4 zenvC4 { colls := [], loaded := [] } "kb" [] 5 (Or.inl (by decide))

/-- C7: `getVectorDimension` returns the default dimension 1024 when the probe
embedding call fails, and the probe vector's length when it succeeds. -/
theorem claim_C7 (env : EmbedEnv) :
    (∀ e elog, QwenVectorizer.vectorizeText env "测试" = (Except.error e, elog) →
      (QwenVectorizer.getVectorDimension env).1 = 1024) ∧
    (∀ v elog, QwenVectorizer.vectorizeText env "测试" = (Except.ok v, elog) →
      (QwenVectorizer.getVectorDimension env).1 = v.length) := by
  constructor
  · intro e elog h
    simp [QwenVectorizer.getVectorDimension, h]
  · intro v elog h
    simp [QwenVectorizer.getVectorDimension, h]

/-- Embedding environment whose remote service times out (for the C7 witness). -/
def envC7fail : EmbedEnv := { api := fun _ => Except.error "timeout" }

/-- Embedding environment answering honestly with the vector `[1, 2]`
(for the C7 witness). -/
def envC7ok : EmbedEnv :=
  { api := fun ts =>
      Except.ok
        { data := some (ts.map fun _ => { embedding := some [(1 : Rat), 2], index := 0 }) } }

/-- Witness for C7: the failing probe falls back to 1024, the successful probe
reports the probe vector's length. -/
theorem claim_C7_witness :
    (QwenVectorizer.getVectorDimension envC7fail).1 = 1024 ∧
    (QwenVectorizer.getVectorDimension envC7ok).1 = ([(1 : Rat), 2] : Vec).length :=
  ⟨(claim_C7 envC7fail).1 "API请求失败: timeout" [["测试"]] rfl,
   (claim_C7 envC7ok).2 [(1 : Rat), 2] [["测试"]] rfl⟩

/-- C8: when the name is already in the collection list, `createCollection`
returns success, the database state (data and schema of every collection) is
unchanged, the remote-call log holds only the list request (no create request),
and the supplied dimension is not consulted: any two dimensions give the same
outcome. -/
theorem claim_C8 (zenv : ZillizEnv) (db : DB) (collectionName : String) (d1 d2 : Nat)
    (h : collectionName ∈ (ZillizManager.listCollections zenv db).1) :
    ZillizManager.createCollection zenv db collectionName d1 =
      (true, db, [RemoteCall.listColls]) ∧
    ZillizManager.createCollection zenv db collectionName d1 =
      ZillizManager.createCollection zenv db collectionName d2 := by
  have h1 : ∀ d : Nat, ZillizManager.createCollection zenv db collectionName d =
      (true, db, [RemoteCall.listColls]) := by
    intro d
    simp [ZillizManager.createCollection, h, listCollections_log]
  exact ⟨h1 d1, (h1 d1).trans (h1 d2).symm⟩

/-- Zilliz environment for the C8 witness: every endpoint healthy. -/
def zenvC8 : ZillizEnv :=
  { listFails := false, createFails := false, insertResp := Except.ok { insertIds := [] },
    loadFails := false, searchResp := Except.ok [] }

/-- Database for the C8 witness: the collection "kb" already exists. -/
def dbC8 : DB := { colls := [("kb", { schema := knowledgeSchema 4, rows := [] })], loaded := [] }

/-- Witness for C8: re-creating "kb" (with dimensions 4 and 9) succeeds without a
create request and without touching the state. -/
theorem claim_C8_witness :
    ZillizManager.createCollection zenvC8 dbC8 "kb" 4 = (true, dbC8, [RemoteCall.listColls]) ∧
    ZillizManager.createCollection zenvC8 dbC8 "kb" 4 =
      ZillizManager.createCollection zenvC8 dbC8 "kb" 9 :=
  claim_C8 zenvC8 dbC8 "kb" 4 9 (by decide)

/-- C10: the per-record shaping `formatResult` used by `searchSimilar` populates
every field even when the underlying record omits it: a missing id becomes
"auto_generated", missing text, topic and title become empty strings, a missing
weight becomes 1.0, missing tags become the empty list, a missing created_at
becomes 0, and a missing distance is treated as similarity score 0. -/
theorem claim_C10 (r : SearchResult) :
    (r.id = none → (formatResult r).id = JsonId.str "auto_generated") ∧
    (r.text = none → (formatResult r).text = "") ∧
    (r.topic = none → (formatResult r).metadata.topic = "") ∧
    (r.title = none → (formatResult r).metadata.title = "") ∧
    (r.weight = none → (formatResult r).metadata.weight = 1) ∧
    (r.tags = none → (formatResult r).metadata.tags = []) ∧
    (r.created_at = none → (formatResult r).created_at = 0) ∧
    (r.distance = none → (formatResult r).similarity_score = 0) := by
  refine ⟨?_, ?_, ?_, ?_, ?_, ?_, ?_, ?_⟩ <;> intro h <;>
    simp [formatResult, jsIdOr, jsStrOr, jsNumOr, jsIntOr, h]

/-- Record with every field absent (for the C10 witness). -/
def emptySearchResult : SearchResult :=
  { id := none, distance := none, text := none, topic := none, weight := none,
    created_at := none, title := none, tags := none }

/-- Witness for C10: formatting the all-missing record yields every default. -/
theorem claim_C10_witness :
    (formatResult emptySearchResult).id = JsonId.str "auto_generated" ∧
    (formatResult emptySearchResult).text = "" ∧
    (formatResult emptySearchResult).metadata.topic = "" ∧
    (formatResult emptySearchResult).metadata.title = "" ∧
    (formatResult emptySearchResult).metadata.weight = 1 ∧
    (formatResult emptySearchResult).metadata.tags = [] ∧
    (formatResult emptySearchResult).created_at = 0 ∧
    (formatResult emptySearchResult).similarity_score = 0 :=
  ⟨(claim_C10 emptySearchResult).1 rfl,
   (claim_C10 emptySearchResult).2.1 rfl,
   (claim_C10 emptySearchResult).2.2.1 rfl,
   (claim_C10 emptySearchResult).2.2.2.1 rfl,
   (claim_C10 emptySearchResult).2.2.2.2.1 rfl,
   (claim_C10 emptySearchResult).2.2.2.2.2.1 rfl,
   (claim_C10 emptySearchResult).2.2.2.2.2.2.1 rfl,
   (claim_C10 emptySearchResult).2.2.2.2.2.2.2 rfl⟩

/-- C3: when the insert succeeds, `vectorizeAndStore` returns the next identifier
of the random-identifier stream, independently of the payload the database
returned for the insert: two runs whose insert responses carry different
database-assigned data (both reporting success) return the same identifier. -/
theorem claim_C3 (eenv : EmbedEnv) (zenv : ZillizEnv) (db : DB) (collectionName : String)
    (vectorDim : Nat) (text : String) (metadata : Metadata) (now : Int)
    (uuids : Nat → String) (v : Vec) (elog : List (List String))
    (info1 info2 : InsertInfo)
    (hembed : QwenVectorizer.vectorizeText eenv text = (Except.ok v, elog))
    (hlist : zenv.listFails = false)
    (hcoll : collectionName ∈ db.colls.map Prod.fst)
    (hins : zenv.insertResp = Except.ok info1) :
    (KnowledgeManager.vectorizeAndStore eenv zenv db collectionName vectorDim text
        metadata now uuids).1 = Except.ok (uuids 0) ∧
    (KnowledgeManager.vectorizeAndStore eenv { zenv with insertResp := Except.ok info2 }
        db collectionName vectorDim text metadata now uuids).1 = Except.ok (uuids 0) := by
  constructor
  · have hid := insertData_fst_of_ok zenv db collectionName
      [{ vector := v, text := text, topic := metadata.topic, weight := metadata.weight,
         title := metadata.title, tags := metadata.tags, created_at := now }]
      vectorDim info1 hlist hcoll hins
    simp [KnowledgeManager.vectorizeAndStore, hembed, hid]
  · have hid := insertData_fst_of_ok { zenv with insertResp := Except.ok info2 } db
      collectionName
      [{ vector := v, text := text, topic := metadata.topic, weight := metadata.weight,
         title := metadata.title, tags := metadata.tags, created_at := now }]
      vectorDim info2 hlist hcoll rfl
    simp [KnowledgeManager.vectorizeAndStore, hembed, hid]

/-- Embedding environment answering honestly with the vector `[1, 2]`
(for the C3 witness). -/
def envC3 : EmbedEnv :=
  { api := fun ts =>
      Except.ok
        { data := some (ts.map fun _ => { embedding := some [(1 : Rat), 2], index := 0 }) } }

/-- Zilliz environment for the C3 witness: the insert response reports the
database-assigned id 7. -/
def zenvC3 : ZillizEnv :=
  { listFails := false, createFails := false, insertResp := Except.ok { insertIds := [7] },
    loadFails := false, searchResp := Except.ok [] }

/-- Database for the C3 witness: the collection "kb" already exists. -/
def dbC3 : DB := { colls := [("kb", { schema := knowledgeSchema 2, rows := [] })], loaded := [] }

/-- Witness for C3: two runs whose insert responses report the different
database-assigned ids 7 and 99 both return the stream identifier "uuid-0". -/
theorem claim_C3_witness :
    (KnowledgeManager.vectorizeAndStore envC3 zenvC3 dbC3 "kb" 2 "hello"
        { topic := "t", weight := 1, title := "ti", tags := [] } 0
        (fun _ => "uuid-0")).1 = Except.ok ((fun _ : Nat => "uuid-0") 0) ∧
    (KnowledgeManager.vectorizeAndStore envC3 { zenvC3 with insertResp := Except.ok { insertIds := [99] } }
        dbC3 "kb" 2 "hello"
        { topic := "t", weight := 1, title := "ti", tags := [] } 0
        (fun _ => "uuid-0")).1 = Except.ok ((fun _ : Nat => "uuid-0") 0) :=
  claim_C3 envC3 zenvC3 dbC3 "kb" 2 "hello"
    { topic := "t", weight := 1, title := "ti", tags := [] } 0 (fun _ => "uuid-0")
    [(1 : Rat), 2] [["hello"]] { insertIds := [7] } { insertIds := [99] }
    rfl rfl (by decide) rfl

/-- C5: when the query embeds successfully, `searchSimilar` returns exactly the
underlying search results whose similarity score (`result.distance || 0`) is
greater than or equal to the threshold — the boundary is inclusive — formatted
and in their original relative order (filter-then-map). -/
theorem claim_C5 (eenv : EmbedEnv) (zenv : ZillizEnv) (db : DB) (collectionName : String)
    (queryText : String) (limit : Nat) (scoreThreshold : Rat) (v : Vec)
    (elog : List (List String))
    (hembed : QwenVectorizer.vectorizeText eenv queryText = (Except.ok v, elog)) :
    (KnowledgeManager.searchSimilar eenv zenv db collectionName queryText limit
        scoreThreshold).1 =
      Except.ok
        (((ZillizManager.search zenv db collectionName v limit).1.filter
            (fun r => decide (jsNumOr r.distance 0 ≥ scoreThreshold))).map formatResult) := by
  simp [KnowledgeManager.searchSimilar, hembed, filterFormat_eq]

/-- Embedding environment answering honestly with the vector `[1]`
(for the C5 witness). -/
def envC5 : EmbedEnv :=
  { api := fun ts =>
      Except.ok { data := some (ts.map fun _ => { embedding := some [(1 : Rat)], index := 0 }) } }

/-- Zilliz environment for the C5 witness: the search returns two records with
distances 2 and 1. -/
def zenvC5 : ZillizEnv :=
  { listFails := false, createFails := false, insertResp := Except.ok { insertIds := [] },
    loadFails := false,
    searchResp := Except.ok
      [{ id := some (JsonId.num 1), distance := some 2, text := some "a" },
       { id := some (JsonId.num 2), distance := some 1, text := some "b" }] }

/-- Database for the C5 witness: the collection "kb" already exists. -/
def dbC5 : DB := { colls := [("kb", { schema := knowledgeSchema 1, rows := [] })], loaded := [] }

/-- Witness for C5 at threshold 1: the record whose score equals the threshold is
kept (inclusive boundary). -/
theorem claim_C5_witness :
    (KnowledgeManager.searchSimilar envC5 zenvC5 dbC5 "kb" "q" 5 1).1 =
      Except.ok
        (((ZillizManager.search zenvC5 dbC5 "kb" [(1 : Rat)] 5).1.filter
            (fun r => decide (jsNumOr r.distance 0 ≥ 1))).map formatResult) :=
  claim_C5 envC5 zenvC5 dbC5 "kb" "q" 5 1 [(1 : Rat)] [["q"]] rfl

/-- C6: when the query embeds successfully and the underlying search results are
sorted by descending similarity score, the results of `searchSimilar` are sorted
by descending `similarity_score`, and raising the threshold from `t1` to
`t2 ≥ t1` never increases the number of returned results. -/
theorem claim_C6 (eenv : EmbedEnv) (zenv : ZillizEnv) (db : DB) (collectionName : String)
    (queryText : String) (limit : Nat) (v : Vec) (elog : List (List String))
    (t t1 t2 : Rat)
    (hembed : QwenVectorizer.vectorizeText eenv queryText = (Except.ok v, elog))
    (hsorted : (ZillizManager.search zenv db collectionName v limit).1.Pairwise
      (fun a b => jsNumOr b.distance 0 ≤ jsNumOr a.distance 0))
    (ht : t1 ≤ t2) :
    (∀ l, (KnowledgeManager.searchSimilar eenv zenv db collectionName queryText limit t).1 =
        Except.ok l →
      l.Pairwise (fun a b => b.similarity_score ≤ a.similarity_score)) ∧
    (∀ l1 l2,
      (KnowledgeManager.searchSimilar eenv zenv db collectionName queryText limit t1).1 =
        Except.ok l1 →
      (KnowledgeManager.searchSimilar eenv zenv db collectionName queryText limit t2).1 =
        Except.ok l2 →
      l2.length ≤ l1.length) := by
  have hout : ∀ s : Rat,
      (KnowledgeManager.searchSimilar eenv zenv db collectionName queryText limit s).1 =
        Except.ok (filterFormat s (ZillizManager.search zenv db collectionName v limit).1) := by
    intro s
    simp [KnowledgeManager.searchSimilar, hembed]
  constructor
  · intro l hl
    rw [hout t] at hl
    injection hl with hl
    rw [← hl]
    exact filterFormat_pairwise t _ hsorted
  · intro l1 l2 h1 h2
    rw [hout t1] at h1
    rw [hout t2] at h2
    injection h1 with h1
    injection h2 with h2
    rw [← h1, ← h2]
    exact filterFormat_length_antitone t1 t2 ht _

/-- Embedding environment answering honestly with the vector `[1]`
(for the C6 witness). -/
def envC6 : EmbedEnv :=
  { api := fun ts =>
      Except.ok { data := some (ts.map fun _ => { embedding := some [(1 : Rat)], index := 0 }) } }

/-- Zilliz environment for the C6 witness: the search returns three records with
descending distances 3, 2, 1. -/
def zenvC6 : ZillizEnv :=
  { listFails := false, createFails := false, insertResp := Except.ok { insertIds := [] },
    loadFails := false,
    searchResp := Except.ok
      [{ distance := some 3 }, { distance := some 2 }, { distance := some 1 }] }

/-- Database for the C6 witness: the collection "kb" already exists. -/
def dbC6 : DB := { colls := [("kb", { schema := knowledgeSchema 1, rows := [] })], loaded := [] }

/-- Witness for C6 with thresholds 1 ≤ 2 on a descending result sequence. -/
theorem claim_C6_witness :
    (∀ l, (KnowledgeManager.searchSimilar envC6 zenvC6 dbC6 "kb" "q" 5 2).1 =
        Except.ok l →
      l.Pairwise (fun a b => b.similarity_score ≤ a.similarity_score)) ∧
    (∀ l1 l2,
      (KnowledgeManager.searchSimilar envC6 zenvC6 dbC6 "kb" "q" 5 1).1 = Except.ok l1 →
      (KnowledgeManager.searchSimilar envC6 zenvC6 dbC6 "kb" "q" 5 2).1 = Except.ok l2 →
      l2.length ≤ l1.length) :=
  claim_C6 envC6 zenvC6 dbC6 "kb" "q" 5 [(1 : Rat)] [["q"]] 2 1 2 rfl (by decide) (by decide)

/-- Zilliz environment for the C9 counterexample: the insert request succeeds but
the load request fails. -/
def zenvC9 : ZillizEnv :=
  { listFails := false, createFails := false, insertResp := Except.ok { insertIds := [] },
    loadFails := true, searchResp := Except.ok [] }

/-- Database for the C9 counterexample: the collection "kb" exists but is not
loaded. -/
def dbC9 : DB := { colls := [("kb", { schema := knowledgeSchema 4, rows := [] })], loaded := [] }

/-- C9 counterexample: when the load request fails, `insertData` still reports
success while the collection is not loaded — refuting "a successful
insertRecords run always ends with the collection loaded". -/
theorem claim_C9_counterexample :
    (ZillizManager.insertData zenvC9 dbC9 "kb" [] 4).1 = true ∧
    "kb" ∉ ((ZillizManager.insertData zenvC9 dbC9 "kb" [] 4).2.1).loaded := by
  decide

/-- C9 (amended): when the collection is absent, `insertData` first creates it
with the fixed `knowledgeSchema`, and after a successful insert it issues a load
request; the load result is not checked, so the run ends with the collection
loaded only when the load request itself succeeds. -/
theorem claim_C9 (zenv : ZillizEnv) (db : DB) (collectionName : String)
    (data : List KnowledgeItem) (vectorDim : Nat) (info : InsertInfo)
    (hlist : zenv.listFails = false)
    (hcreate : zenv.createFails = false)
    (hins : zenv.insertResp = Except.ok info)
    (habsent : collectionName ∉ db.colls.map Prod.fst) :
    (ZillizManager.insertData zenv db collectionName data vectorDim).1 = true ∧
    RemoteCall.create collectionName vectorDim ∈
      (ZillizManager.insertData zenv db collectionName data vectorDim).2.2 ∧
    (collectionName, ({ schema := knowledgeSchema vectorDim, rows := data } : CollData)) ∈
      ((ZillizManager.insertData zenv db collectionName data vectorDim).2.1).colls ∧
    RemoteCall.load collectionName ∈
      (ZillizManager.insertData zenv db collectionName data vectorDim).2.2 ∧
    (zenv.loadFails = false →
      collectionName ∈
        ((ZillizManager.insertData zenv db collectionName data vectorDim).2.1).loaded) := by
  by_cases hload : zenv.loadFails = true <;>
    simp [ZillizManager.insertData, ZillizManager.listCollections, hlist, habsent,
          ZillizManager.createCollection, hcreate, ZillizManager.insertRequest, hins,
          ZillizManager.loadCollection, DB.appendRows, hload]

/-- Zilliz environment for the C9 witness: every endpoint healthy; the insert
response reports the database-assigned id 5. -/
def zenvC9w : ZillizEnv :=
  { listFails := false, createFails := false, insertResp := Except.ok { insertIds := [5] },
    loadFails := false, searchResp := Except.ok [] }

/-- Witness for the amended C9: inserting into an absent collection of an empty
database creates it with the fixed schema, issues the load request, and (the
load succeeding here) ends with the collection loaded. -/
theorem claim_C9_witness :
    (ZillizManager.insertData zenvC9w { colls := [], loaded := [] } "kb" [] 4).1 = true ∧
    RemoteCall.create "kb" 4 ∈
      (ZillizManager.insertData zenvC9w { colls := [], loaded := [] } "kb" [] 4).2.2 ∧
    ("kb", ({ schema := knowledgeSchema 4, rows := [] } : CollData)) ∈
      ((ZillizManager.insertData zenvC9w { colls := [], loaded := [] } "kb" [] 4).2.1).colls ∧
    RemoteCall.load "kb" ∈
      (ZillizManager.insertData zenvC9w { colls := [], loaded := [] } "kb" [] 4).2.2 ∧
    "kb" ∈ ((ZillizManager.insertData zenvC9w { colls := [], loaded := [] } "kb" [] 4).2.1).loaded :=
  ⟨(claim_C9 zenvC9w { colls := [], loaded := [] } "kb" [] 4 { insertIds := [5] }
      rfl rfl rfl (by decide)).1,
   (claim_C9 zenvC9w { colls := [], loaded := [] } "kb" [] 4 { insertIds := [5] }
      rfl rfl rfl (by decide)).2.1,
   (claim_C9 zenvC9w { colls := [], loaded := [] } "kb" [] 4 { insertIds := [5] }
      rfl rfl rfl (by decide)).2.2.1,
   (claim_C9 zenvC9w { colls := [], loaded := [] } "kb" [] 4 { insertIds := [5] }
      rfl rfl rfl (by decide)).2.2.2.1,
   (claim_C9 zenvC9w { colls := [], loaded := [] } "kb" [] 4 { insertIds := [5] }
      rfl rfl rfl (by decide)).2.2.2.2 rfl⟩

end Knowledge
